import Mathlib

/-!
# Verification of the apollo-client query-state reducer

Shallow embedding of `queries` (the query-state reducer) and `resetQueryState`
from `src/src/index.ts`, together with a spec-modelled request scheduler
(`RequestScheduler` in the source is an empty constructor holding only design
comments).

Modelling conventions:
* A JavaScript query-state object is a record whose fields are all `Option`:
  `none` models a field that is absent, `undefined`, or `null` (the reducer
  never distinguishes these in a way the claims depend on; the one place the
  distinction could matter, the staleness comparison `requestId < lastRequestId`
  against a `null`/`undefined` `lastRequestId`, evaluates to `false` in
  JavaScript for the nonnegative request ids used, and the embedding's
  `staleRequest` returns `false` on `none` accordingly).
* The query-state map (`QueryStore`) is a function `String → Option QueryStoreValue`;
  `lodash.assign` copy-on-write updates become pointwise function updates.
* The `new Date()` read in the FETCH_REQUEST branch is modelled by an explicit
  clock argument `now : Nat` passed to the reducer; `Date` values are `Nat`
  timestamps.
* Opaque payloads the reducer only stores or compares for (deep) equality are
  given simple concrete carrier types with decidable equality.
-/

namespace Apollo

/-- Variable bindings of a query; the reducer only stores them and compares
them with lodash `isEqual` (deep structural equality). -/
abbrev Variables := List (String × String)

/-- A server-reported GraphQL error (opaque payload). -/
abbrev GQLError := String

/-- A transport-level network error (opaque payload). -/
abbrev NetError := String

/-- Fragment name to fragment definition map (opaque payload). -/
abbrev FragmentMap := List (String × String)

/-- `SelectionSetWithRoot` from `src/src/index.ts`; the selection set itself is
opaque to the reducer. -/
structure SelectionSetWithRoot where
  id : String
  typeName : String
  selectionSet : String
deriving DecidableEq, Repr

/-- A GraphQL execution result as seen by the reducer: only the `errors`
field is inspected (`data` is opaque).  `errors := none` models an absent
errors field. -/
structure GraphQLResult where
  payload : Option String
  errors : Option (List GQLError)
deriving DecidableEq, Repr

/-- `graphQLResultHasError` from `src/data/storeUtils` as used by the reducer:
JavaScript `result.errors && result.errors.length`, i.e. truthy exactly when
the errors field is present and nonempty. -/
def graphQLResultHasError (r : GraphQLResult) : Bool :=
  match r.errors with
  | some l => !l.isEmpty
  | none => false

/-- `QueryStoreValue` from `src/src/index.ts`.  Every field is `Option`-valued:
`none` models an absent / `undefined` / `null` JavaScript field, so that
objects built by `assign` from partial patches (e.g. the QUERY_STOP branch on
an unknown id) are representable. -/
structure QueryStoreValue where
  queryString : Option String
  query : Option SelectionSetWithRoot
  vars : Option Variables
  previousVariables : Option Variables
  loading : Option Bool
  stopped : Option Bool
  pollInterval : Option Nat
  inFlight : Option Bool
  lastRequestTime : Option Nat
  networkError : Option NetError
  graphQLErrors : Option (List GQLError)
  forceFetch : Option Bool
  returnPartialData : Option Bool
  lastRequestId : Option Nat
  fragmentMap : Option FragmentMap
deriving DecidableEq, Repr

/-- The empty JavaScript object `{}` viewed as a query-state value: every
field absent.  This is the base `assign({}, undefined, patch)` starts from
when QUERY_STOP hits an id with no existing entry. -/
def emptyEntry : QueryStoreValue :=
  { queryString := none, query := none, vars := none,
    previousVariables := none, loading := none, stopped := none,
    pollInterval := none, inFlight := none, lastRequestTime := none,
    networkError := none, graphQLErrors := none, forceFetch := none,
    returnPartialData := none, lastRequestId := none, fragmentMap := none }

/-- `QueryStore` from `src/src/index.ts`: map from query id to its state,
modelled extensionally as a function (absent key ↦ `none`). -/
abbrev QueryStore := String → Option QueryStoreValue

/-- The closed vocabulary of actions the reducer switches on
(`src/core/actions` type guards `isQueryInitAction` … `isStoreResetAction`);
each constructor carries exactly the fields the reducer reads.  `other`
stands for every remaining `ApolloAction` kind, which falls through to the
final `return previousState`. -/
inductive ApolloAction where
  | queryInit (queryId : String) (queryString : String)
      (query : SelectionSetWithRoot) (vars : Variables)
      (storePreviousVariables : Bool) (pollInterval : Nat)
      (forceFetch : Bool) (returnPartialData : Bool) (fragmentMap : FragmentMap)
  | fetchRequest (queryId : String) (requestId : Nat)
  | queryResult (queryId : String) (requestId : Nat) (result : GraphQLResult)
  | queryError (queryId : String) (requestId : Nat) (error : NetError)
  | queryResultClient (queryId : String) (complete : Bool)
  | queryStop (queryId : String)
  | storeReset (observableQueryIds : List String)
  | other
deriving DecidableEq, Repr

/-- Type-guard `isFetchRequestAction` from `src/core/actions`. -/
def isFetchRequestAction : ApolloAction → Bool
  | .fetchRequest _ _ => true
  | _ => false

/-- The query id an action is keyed by, when it has one (QUERY_INIT,
FETCH_REQUEST, QUERY_RESULT, QUERY_ERROR, QUERY_RESULT_CLIENT, QUERY_STOP). -/
def actionQueryId : ApolloAction → Option String
  | .queryInit queryId _ _ _ _ _ _ _ _ => some queryId
  | .fetchRequest queryId _ => some queryId
  | .queryResult queryId _ _ => some queryId
  | .queryError queryId _ _ => some queryId
  | .queryResultClient queryId _ => some queryId
  | .queryStop queryId => some queryId
  | .storeReset _ => none
  | .other => none

/-- The staleness guard `action.requestId < previousState[queryId].lastRequestId`
of the QUERY_RESULT and QUERY_ERROR branches.  When the stored
`lastRequestId` is `null`/`undefined` (`none` here) the JavaScript comparison
is `false` for the nonnegative request ids in use, so the guard does not
fire. -/
def staleRequest (requestId : Nat) (v : QueryStoreValue) : Bool :=
  match v.lastRequestId with
  | some last => decide (requestId < last)
  | none => false

/-- The fresh entry the QUERY_INIT branch writes (object literal at
`src/src/index.ts:138-154`), parameterised by the computed
`previousVariables`. -/
def initialEntry (queryString : String) (query : SelectionSetWithRoot)
    (vars : Variables) (previousVariables : Option Variables)
    (pollInterval : Nat) (forceFetch : Bool) (returnPartialData : Bool)
    (fragmentMap : FragmentMap) : QueryStoreValue :=
  { queryString := some queryString,
    query := some query,
    vars := some vars,
    previousVariables := previousVariables,
    loading := some true,
    stopped := some false,
    networkError := none,
    graphQLErrors := none,
    pollInterval := some pollInterval,
    inFlight := some false,
    lastRequestTime := none,
    forceFetch := some forceFetch,
    returnPartialData := some returnPartialData,
    lastRequestId := none,
    fragmentMap := some fragmentMap }

/-- `resetQueryState` from `src/src/index.ts:248-260`: keep exactly the
entries whose query id occurs in the allow-list
(`observableQueryIds.indexOf(queryId) > -1`), drop everything else. -/
def resetQueryState (state : QueryStore) (observableQueryIds : List String) :
    QueryStore :=
  fun queryId =>
    if observableQueryIds.contains queryId then state queryId else none

/-- The `queries` reducer from `src/src/index.ts:120-242`.  `now` is the
clock reading the FETCH_REQUEST branch stamps into `lastRequestTime`
(`new Date()` in the source). -/
def queries (previousState : QueryStore) (action : ApolloAction) (now : Nat) :
    QueryStore :=
  match action with
  | .queryInit queryId queryString query vars storePreviousVariables
      pollInterval forceFetch returnPartialData fragmentMap =>
    let previousVariables : Option Variables :=
      match previousState queryId with
      | some previousQuery =>
        if storePreviousVariables && !(previousQuery.vars == some vars)
        then previousQuery.vars
        else none
      | none => none
    fun q =>
      if q = queryId then
        some (initialEntry queryString query vars previousVariables
          pollInterval forceFetch returnPartialData fragmentMap)
      else previousState q
  | .fetchRequest queryId requestId =>
    match previousState queryId with
    | none => previousState
    | some prev =>
      fun q =>
        if q = queryId then
          some { prev with
            inFlight := some true,
            lastRequestId := some requestId,
            lastRequestTime := some now }
        else previousState q
  | .queryResult queryId requestId result =>
    match previousState queryId with
    | none => previousState
    | some prev =>
      if staleRequest requestId prev then previousState
      else
        fun q =>
          if q = queryId then
            some { prev with
              loading := some false,
              inFlight := some false,
              networkError := none,
              graphQLErrors :=
                if graphQLResultHasError result then result.errors else none,
              previousVariables := none }
          else previousState q
  | .queryError queryId requestId error =>
    match previousState queryId with
    | none => previousState
    | some prev =>
      if staleRequest requestId prev then previousState
      else
        fun q =>
          if q = queryId then
            some { prev with
              loading := some false,
              inFlight := some false,
              networkError := some error }
          else previousState q
  | .queryResultClient queryId complete =>
    match previousState queryId with
    | none => previousState
    | some prev =>
      fun q =>
        if q = queryId then
          some { prev with
            loading := some (!complete),
            networkError := none,
            previousVariables := none }
        else previousState q
  | .queryStop queryId =>
    let prev := (previousState queryId).getD emptyEntry
    fun q =>
      if q = queryId then
        some { prev with loading := some false, stopped := some true }
      else previousState q
  | .storeReset observableQueryIds =>
    resetQueryState previousState observableQueryIds
  | .other => previousState

/-- Modelled from the spec: the `RequestScheduler` class in
`src/src/index.ts:264-329` is an empty constructor containing only design
comments, so the firing decision is modelled from spec §4.5: a query fires
only if it is non-stopped and non-inFlight, and it is newly initialized
(never fired), carries the force-fetch flag, or its poll interval has
elapsed since `lastRequestTime`. -/
def shouldFire (v : QueryStoreValue) (now : Nat) : Bool :=
  !(v.stopped.getD false) && !(v.inFlight.getD false) &&
    (v.lastRequestTime.isNone || v.forceFetch.getD false ||
      (match v.pollInterval, v.lastRequestTime with
       | some p, some t => decide (0 < p) && decide (t + p ≤ now)
       | _, _ => false))

/-- Modelled from the spec: the scheduler's one firing pass over the known
query ids — every id whose state passes `shouldFire` is dispatched. -/
def queriesToFire (S : QueryStore) (ids : List String) (now : Nat) :
    List String :=
  ids.filter fun qid =>
    match S qid with
    | some v => shouldFire v now
    | none => false

/-! ## Concrete sample data used by witnesses and counterexamples -/

/-- A concrete query-state entry: mid-flight request number 2. -/
def sampleEntry : QueryStoreValue :=
  { emptyEntry with
    queryString := some "query Q",
    vars := some [("x", "1")],
    loading := some true,
    stopped := some false,
    inFlight := some true,
    lastRequestId := some 2 }

/-- A concrete store holding `sampleEntry` under query id `a`. -/
def sampleStore : QueryStore :=
  fun q => if q = "a" then some sampleEntry else none

/-- The empty query-state map. -/
def emptyStore : QueryStore := fun _ => none

/-- A concrete selection-set root. -/
def sampleSel : SelectionSetWithRoot :=
  { id := "ROOT_QUERY", typeName := "Query", selectionSet := "hero" }

/-- A concrete result carrying one GraphQL error. -/
def sampleResult : GraphQLResult :=
  { payload := some "ok", errors := some ["boom"] }

/-! ## Shared helper lemmas -/

/-- For every action keyed by a query id, the reducer leaves the entry of
every other query id untouched. -/
lemma frame_of_actionQueryId (S : QueryStore) (a : ApolloAction) (now : Nat)
    (qid : String) (h : actionQueryId a = some qid) (q : String)
    (hq : q ≠ qid) : queries S a now q = S q := by
  cases a with
  | queryInit qid2 qs q0 vs spv pi0 ff rpd fm =>
    injection h with h
    subst h
    simp only [queries]
    rw [if_neg hq]
  | fetchRequest qid2 rid =>
    injection h with h
    subst h
    cases hS : S qid2 with
    | none => simp only [queries, hS]
    | some v =>
      simp only [queries, hS]
      rw [if_neg hq]
  | queryResult qid2 rid r =>
    injection h with h
    subst h
    cases hS : S qid2 with
    | none => simp only [queries, hS]
    | some v =>
      cases hst : staleRequest rid v <;> simp [queries, hS, hst, hq]
  | queryError qid2 rid e =>
    injection h with h
    subst h
    cases hS : S qid2 with
    | none => simp only [queries, hS]
    | some v =>
      cases hst : staleRequest rid v <;> simp [queries, hS, hst, hq]
  | queryResultClient qid2 c =>
    injection h with h
    subst h
    cases hS : S qid2 with
    | none => simp only [queries, hS]
    | some v =>
      simp only [queries, hS]
      rw [if_neg hq]
  | queryStop qid2 =>
    injection h with h
    subst h
    simp only [queries]
    rw [if_neg hq]
  | storeReset ids => exact Option.noConfusion h
  | other => exact Option.noConfusion h

/-! ## Claim theorems -/

/-- Claim C4: a STORE_RESET action filters the query-state map down to
exactly the entries whose query id occurs in the supplied allow-list, each
kept identical; every non-allow-listed entry is dropped, and allow-listed
ids absent from the map are not added. -/
theorem store_reset_spec (S : QueryStore) (ids : List String) (now : Nat)
    (q : String) :
    queries S (.storeReset ids) now q =
      if ids.contains q then S q else none := rfl

/-- Claim C6: a FETCH_REQUEST action is a no-op when the query id is
unknown; otherwise it sets the entry's `inFlight := true`, stamps
`lastRequestId` with the action's request id and `lastRequestTime` with the
clock reading, leaves the entry's other fields unchanged, and leaves every
other query id's entry unchanged. -/
theorem fetch_request_spec (S : QueryStore) (qid : String) (rid : Nat)
    (now : Nat) :
    (S qid = none → queries S (.fetchRequest qid rid) now = S) ∧
    (∀ v, S qid = some v →
      queries S (.fetchRequest qid rid) now qid =
        some { v with
          inFlight := some true,
          lastRequestId := some rid,
          lastRequestTime := some now } ∧
      ∀ q, q ≠ qid → queries S (.fetchRequest qid rid) now q = S q) := by
  refine ⟨fun h => ?_, fun v h => ⟨?_, fun q hq => ?_⟩⟩
  · simp only [queries, h]
  · simp [queries, h]
  · exact frame_of_actionQueryId S (.fetchRequest qid rid) now qid rfl q hq

/-- Witness for C6: on the sample store, a FETCH_REQUEST for `a` with
request id 3 at time 5 marks the entry in-flight with that id and time, and
an unknown id `z` is a no-op. -/
theorem fetch_request_spec_w :
    queries sampleStore (.fetchRequest "a" 3) 5 "a" =
      some { sampleEntry with
        inFlight := some true,
        lastRequestId := some 3,
        lastRequestTime := some 5 } ∧
    queries sampleStore (.fetchRequest "z" 3) 5 = sampleStore :=
  ⟨((fetch_request_spec sampleStore "a" 3 5).2 sampleEntry (by decide)).1,
   (fetch_request_spec sampleStore "z" 3 5).1 (by decide)⟩

/-- Claim C1: a QUERY_RESULT action is a no-op when the query id is unknown
or when the action's request id is strictly below the stored
`lastRequestId` (an equal id is accepted); otherwise it updates the entry to
`loading := false`, `inFlight := false`, `networkError := null`,
`previousVariables := null`, with `graphQLErrors` equal to the result's
errors when the result carries (nonempty) errors and null otherwise, all
other fields of the entry and all other entries unchanged. -/
theorem query_result_spec (S : QueryStore) (qid : String) (rid : Nat)
    (r : GraphQLResult) (now : Nat) :
    (S qid = none → queries S (.queryResult qid rid r) now = S) ∧
    (∀ v last, S qid = some v → v.lastRequestId = some last → rid < last →
      queries S (.queryResult qid rid r) now = S) ∧
    (∀ v, S qid = some v → staleRequest rid v = false →
      queries S (.queryResult qid rid r) now qid =
        some { v with
          loading := some false,
          inFlight := some false,
          networkError := none,
          graphQLErrors :=
            if graphQLResultHasError r then r.errors else none,
          previousVariables := none } ∧
      ∀ q, q ≠ qid → queries S (.queryResult qid rid r) now q = S q) := by
  refine ⟨fun h => ?_, fun v last h hlast hlt => ?_,
    fun v h hst => ⟨?_, fun q hq => ?_⟩⟩
  · simp only [queries, h]
  · have hstale : staleRequest rid v = true := by
      simp [staleRequest, hlast, hlt]
    simp only [queries, h, hstale, if_true]
  · simp [queries, h, hst]
  · exact frame_of_actionQueryId S (.queryResult qid rid r) now qid rfl q hq

/-- Witness for C1: on the sample store (stored `lastRequestId = 2`), a
result with stale request id 1 is discarded, while a result with the equal
request id 2 is accepted and records the result's error list. -/
theorem query_result_spec_w :
    queries sampleStore (.queryResult "a" 1 sampleResult) 0 = sampleStore ∧
    queries sampleStore (.queryResult "a" 2 sampleResult) 0 "a" =
      some { sampleEntry with
        loading := some false,
        inFlight := some false,
        networkError := none,
        graphQLErrors := some ["boom"],
        previousVariables := none } := by
  refine ⟨(query_result_spec sampleStore "a" 1 sampleResult 0).2.1
    sampleEntry 2 (by decide) (by decide) (by decide), ?_⟩
  have h := ((query_result_spec sampleStore "a" 2 sampleResult 0).2.2
    sampleEntry (by decide) (by decide)).1
  simpa [graphQLResultHasError, sampleResult] using h

/-- Claim C7: a QUERY_ERROR action is a no-op when the query id is unknown
or when the action's request id is strictly below the stored
`lastRequestId`; otherwise it updates the entry to `loading := false`,
`inFlight := false`, `networkError := <the action's error>`, all other
fields of the entry and all other entries unchanged. -/
theorem query_error_spec (S : QueryStore) (qid : String) (rid : Nat)
    (e : NetError) (now : Nat) :
    (S qid = none → queries S (.queryError qid rid e) now = S) ∧
    (∀ v last, S qid = some v → v.lastRequestId = some last → rid < last →
      queries S (.queryError qid rid e) now = S) ∧
    (∀ v, S qid = some v → staleRequest rid v = false →
      queries S (.queryError qid rid e) now qid =
        some { v with
          loading := some false,
          inFlight := some false,
          networkError := some e } ∧
      ∀ q, q ≠ qid → queries S (.queryError qid rid e) now q = S q) := by
  refine ⟨fun h => ?_, fun v last h hlast hlt => ?_,
    fun v h hst => ⟨?_, fun q hq => ?_⟩⟩
  · simp only [queries, h]
  · have hstale : staleRequest rid v = true := by
      simp [staleRequest, hlast, hlt]
    simp only [queries, h, hstale, if_true]
  · simp [queries, h, hst]
  · exact frame_of_actionQueryId S (.queryError qid rid e) now qid rfl q hq

/-- Witness for C7: on the sample store (stored `lastRequestId = 2`), an
error for stale request id 1 is discarded, while an error for request id 2
is recorded as the entry's network error. -/
theorem query_error_spec_w :
    queries sampleStore (.queryError "a" 1 "offline") 0 = sampleStore ∧
    queries sampleStore (.queryError "a" 2 "offline") 0 "a" =
      some { sampleEntry with
        loading := some false,
        inFlight := some false,
        networkError := some "offline" } :=
  ⟨(query_error_spec sampleStore "a" 1 "offline" 0).2.1
      sampleEntry 2 (by decide) (by decide) (by decide),
   ((query_error_spec sampleStore "a" 2 "offline" 0).2.2
      sampleEntry (by decide) (by decide)).1⟩

/-- Claim C5: a QUERY_INIT action inserts or overwrites the entry at the
action's query id with a fresh entry (`loading := true`, `stopped := false`,
`inFlight := false`, `networkError := null`, `graphQLErrors := null`, query
data taken from the action); `previousVariables` is set to the prior
entry's variables exactly when `storePreviousVariables` holds, an entry
already exists, and that entry's variables differ from the action's;
otherwise it is unset.  Other entries are unchanged. -/
theorem query_init_spec (S : QueryStore) (qid qs : String)
    (q0 : SelectionSetWithRoot) (vs : Variables) (spv : Bool) (pi0 : Nat)
    (ff rpd : Bool) (fm : FragmentMap) (now : Nat) :
    (∀ pv, S qid = some pv → spv = true → pv.vars ≠ some vs →
      queries S (.queryInit qid qs q0 vs spv pi0 ff rpd fm) now qid =
        some (initialEntry qs q0 vs pv.vars pi0 ff rpd fm)) ∧
    ((spv = false ∨ S qid = none ∨ (∃ pv, S qid = some pv ∧ pv.vars = some vs)) →
      queries S (.queryInit qid qs q0 vs spv pi0 ff rpd fm) now qid =
        some (initialEntry qs q0 vs none pi0 ff rpd fm)) ∧
    (∀ q, q ≠ qid →
      queries S (.queryInit qid qs q0 vs spv pi0 ff rpd fm) now q = S q) := by
  refine ⟨fun pv h hspv hne => ?_, fun hcase => ?_, fun q hq => ?_⟩
  · simp [queries, h, hspv, hne]
  · rcases hcase with hspv | hnone | ⟨pv, h, hvs⟩
    · cases hS : S qid <;> simp [queries, hS, hspv]
    · simp [queries, hnone]
    · simp [queries, h, hvs]
  · exact frame_of_actionQueryId S
      (.queryInit qid qs q0 vs spv pi0 ff rpd fm) now qid rfl q hq

/-- Witness for C5: re-initialising `a` with different variables and
`storePreviousVariables := true` retains the old variables as
`previousVariables`; with equal variables it leaves them unset; entry `b` is
untouched. -/
theorem query_init_spec_w :
    queries sampleStore
        (.queryInit "a" "query Q" sampleSel [("y", "2")] true 0 false false [])
        0 "a" =
      some (initialEntry "query Q" sampleSel [("y", "2")]
        (some [("x", "1")]) 0 false false []) ∧
    queries sampleStore
        (.queryInit "a" "query Q" sampleSel [("x", "1")] true 0 false false [])
        0 "a" =
      some (initialEntry "query Q" sampleSel [("x", "1")] none 0 false false []) ∧
    queries sampleStore
        (.queryInit "a" "query Q" sampleSel [("y", "2")] true 0 false false [])
        0 "b" = none := by
  refine ⟨?_, ?_, ?_⟩
  · exact (query_init_spec sampleStore "a" "query Q" sampleSel [("y", "2")]
      true 0 false false [] 0).1 sampleEntry (by decide) rfl (by decide)
  · exact (query_init_spec sampleStore "a" "query Q" sampleSel [("x", "1")]
      true 0 false false [] 0).2.1 (Or.inr (Or.inr ⟨sampleEntry, by decide,
        by decide⟩))
  · have h := (query_init_spec sampleStore "a" "query Q" sampleSel [("y", "2")]
      true 0 false false [] 0).2.2 "b" (by decide)
    simpa [sampleStore] using h

/-- Counterexample to Claim C2: QUERY_STOP does not remove the entry.  On a
store holding an entry for `a`, stopping `a` leaves an entry for `a` in
place (with `stopped := true`) instead of deleting it. -/
theorem query_stop_removes_cex :
    queries sampleStore (.queryStop "a") 0 "a" ≠ none := by decide

/-- Claim C2 as amended: applying QUERY_STOP for a query id present in the
map retains the entry, setting `loading := false` and `stopped := true` and
leaving its other fields and all other entries unchanged. -/
theorem query_stop_retains_spec (S : QueryStore) (qid : String) (now : Nat)
    (v : QueryStoreValue) (h : S qid = some v) :
    queries S (.queryStop qid) now qid =
      some { v with loading := some false, stopped := some true } ∧
    ∀ q, q ≠ qid → queries S (.queryStop qid) now q = S q := by
  refine ⟨?_, fun q hq => ?_⟩
  · simp [queries, h]
  · exact frame_of_actionQueryId S (.queryStop qid) now qid rfl q hq

/-- Witness for amended C2: stopping `a` on the sample store keeps the
entry, now marked stopped and not loading. -/
theorem query_stop_retains_spec_w :
    queries sampleStore (.queryStop "a") 0 "a" =
      some { sampleEntry with loading := some false, stopped := some true } :=
  (query_stop_retains_spec sampleStore "a" 0 sampleEntry (by decide)).1

/-- Claim C10: QUERY_STOP has no unknown-id guard: on a map with no entry
for the action's query id it does not return the map unchanged, but adds a
new entry whose only set fields are `loading := false` and
`stopped := true` (built by `assign` from the empty object). -/
theorem query_stop_unknown_spec (S : QueryStore) (qid : String) (now : Nat)
    (h : S qid = none) :
    queries S (.queryStop qid) now qid =
      some { emptyEntry with loading := some false, stopped := some true } ∧
    queries S (.queryStop qid) now ≠ S := by
  have h1 : queries S (.queryStop qid) now qid =
      some { emptyEntry with loading := some false, stopped := some true } := by
    simp [queries, h]
  refine ⟨h1, fun hEq => ?_⟩
  rw [hEq, h] at h1
  exact Option.noConfusion h1

/-- Witness for C10: stopping the unknown id `a` on the empty store creates
an entry holding only `loading := false` and `stopped := true`, so the map
is not left unchanged. -/
theorem query_stop_unknown_spec_w :
    queries emptyStore (.queryStop "a") 0 "a" =
      some { emptyEntry with loading := some false, stopped := some true } ∧
    queries emptyStore (.queryStop "a") 0 ≠ emptyStore :=
  query_stop_unknown_spec emptyStore "a" 0 rfl

/-- Counterexample to Claim C3: the FETCH_REQUEST branch reads the ambient
clock (`new Date()` in the source), so the reducer is not a function of
`(previousState, action)` alone: the same state and action give different
results at clock readings 0 and 1. -/
theorem queries_clock_dependence_cex :
    queries sampleStore (.fetchRequest "a" 3) 0 ≠
      queries sampleStore (.fetchRequest "a" 3) 1 := by
  intro h
  exact absurd (congrFun h "a") (by decide)

/-- Claim C3 as amended: modelling the clock as an explicit argument, the
reducer is a pure function of `(previousState, action, now)`, and for every
action other than a FETCH_REQUEST its result does not depend on the clock
at all; only the FETCH_REQUEST branch reads the clock (stamping it into
`lastRequestTime`). -/
theorem queries_clock_independent_spec (S : QueryStore) (a : ApolloAction)
    (t1 t2 : Nat) (h : isFetchRequestAction a = false) :
    queries S a t1 = queries S a t2 := by
  cases a <;> first
    | rfl
    | simp [isFetchRequestAction] at h

/-- Witness for amended C3: a QUERY_STOP action gives the same result at
clock readings 0 and 7. -/
theorem queries_clock_independent_spec_w :
    queries sampleStore (.queryStop "a") 0 =
      queries sampleStore (.queryStop "a") 7 :=
  queries_clock_independent_spec sampleStore (.queryStop "a") 0 7 rfl

/-- Claim C9: for every action keyed by a query id (QUERY_INIT,
FETCH_REQUEST, QUERY_RESULT, QUERY_ERROR, QUERY_RESULT_CLIENT, QUERY_STOP),
the reducer maps every other query id to the identical entry it had in the
previous state.  (The reducer never mutates its input: in this embedding the
previous state is a pure value and every branch builds the new map by
copy-on-write, so input mutation is impossible by construction.) -/
theorem queries_frame_spec (S : QueryStore) (a : ApolloAction) (now : Nat)
    (qid : String) (h : actionQueryId a = some qid) :
    ∀ q, q ≠ qid → queries S a now q = S q :=
  fun q hq => frame_of_actionQueryId S a now qid h q hq

/-- Witness for C9: a QUERY_RESULT for `a` leaves the (absent) entry for
`b` absent. -/
theorem queries_frame_spec_w :
    queries sampleStore (.queryResult "a" 2 sampleResult) 0 "b" =
      sampleStore "b" :=
  queries_frame_spec sampleStore (.queryResult "a" 2 sampleResult) 0 "a"
    rfl "b" (by decide)

/-- Claim C8: the scheduler never fires a query whose state is currently
in-flight: such a query id is never in the batch of queries to dispatch.
(The firing decision is modelled from spec §4.5, the source scheduler being
an empty stub; the reducer clears `inFlight` only on a QUERY_RESULT or
QUERY_ERROR for the query, and a stopped query is excluded separately.) -/
theorem scheduler_never_fires_in_flight (S : QueryStore) (ids : List String)
    (now : Nat) (qid : String) (v : QueryStoreValue) (hv : S qid = some v)
    (hf : v.inFlight = some true) : qid ∉ queriesToFire S ids now := by
  intro hmem
  have hp := List.of_mem_filter hmem
  simp only [hv] at hp
  simp [shouldFire, hf] at hp

/-- Witness for C8: the sample entry for `a` is in-flight, so `a` is not
fired even when due and listed. -/
theorem scheduler_never_fires_in_flight_w :
    "a" ∉ queriesToFire sampleStore ["a"] 100 :=
  scheduler_never_fires_in_flight sampleStore ["a"] 100 "a" sampleEntry
    (by decide) (by decide)

end Apollo
